import Mathlib

/-!
Shallow embedding of the multi-provider cloud-provisioning backend
(FastAPI application under `Backend/app`), together with theorems that
settle the frozen claims about its specification.

Conventions of the embedding:
* Python exceptions become `Option`/`Except`: a raised `ValueError`/`KeyError`
  is `none` / `.error e`; the caller's state is unchanged on an exception.
* `uuid.uuid4()` tokens are passed in explicitly as strings (the code only
  concatenates them into ids); `datetime.utcnow()` is passed in as a `Nat` tick.
* Python dicts used as keyed stores become association lists in insertion
  order, which is exactly the iteration order of a Python `dict`.
-/

namespace VMAF

/-- `ResourceStatus` enum from `app/domain/abstractions/products.py`. -/
inductive ResourceStatus : Type
  | creating
  | running
  | stopped
  | deleting
  | error
  deriving DecidableEq, Repr

open ResourceStatus

/-! ### Lifecycle operations of the concrete VM products

Each operation takes the current status and returns `some newStatus` when the
Python method returns normally, `none` when it raises `ValueError` (in which
case `self.status` is untouched).  Translated method by method from
`app/domain/products/{aws,azure,gcp,oracle,onprem}_products.py`. -/

/-- `EC2Instance.start` (aws_products.py): only from `STOPPED`, else ValueError. -/
def ec2Start : ResourceStatus → Option ResourceStatus
  | stopped => some running
  | _ => none

/-- `EC2Instance.stop` (aws_products.py): only from `RUNNING`, else ValueError. -/
def ec2Stop : ResourceStatus → Option ResourceStatus
  | running => some stopped
  | _ => none

/-- `EC2Instance.restart` (aws_products.py): only from `RUNNING`, stays `RUNNING`. -/
def ec2Restart : ResourceStatus → Option ResourceStatus
  | running => some running
  | _ => none

/-- `AzureVirtualMachine.start` (azure_products.py): only from `STOPPED`. -/
def azureVMStart : ResourceStatus → Option ResourceStatus
  | stopped => some running
  | _ => none

/-- `AzureVirtualMachine.stop` (azure_products.py): only from `RUNNING`. -/
def azureVMStop : ResourceStatus → Option ResourceStatus
  | running => some stopped
  | _ => none

/-- `AzureVirtualMachine.restart` (azure_products.py): only from `RUNNING`. -/
def azureVMRestart : ResourceStatus → Option ResourceStatus
  | running => some running
  | _ => none

/-- `OnPremiseVirtualMachine.start` (onprem_products.py): unconditional, no guard. -/
def onpremVMStart (_ : ResourceStatus) : Option ResourceStatus := some running

/-- `OnPremiseVirtualMachine.stop` (onprem_products.py): unconditional. -/
def onpremVMStop (_ : ResourceStatus) : Option ResourceStatus := some stopped

/-- `OnPremiseVirtualMachine.restart` (onprem_products.py): unconditional. -/
def onpremVMRestart (_ : ResourceStatus) : Option ResourceStatus := some running

/-- `OracleComputeInstance.start` (oracle_products.py): unconditional. -/
def oracleVMStart (_ : ResourceStatus) : Option ResourceStatus := some running

/-- `OracleComputeInstance.stop` (oracle_products.py): unconditional. -/
def oracleVMStop (_ : ResourceStatus) : Option ResourceStatus := some stopped

/-- `OracleComputeInstance.restart` (oracle_products.py): unconditional. -/
def oracleVMRestart (_ : ResourceStatus) : Option ResourceStatus := some running

/-- `ComputeEngineInstance.start` (gcp_products.py): unconditional. -/
def gcpVMStart (_ : ResourceStatus) : Option ResourceStatus := some running

/-- `ComputeEngineInstance.stop` (gcp_products.py): unconditional. -/
def gcpVMStop (_ : ResourceStatus) : Option ResourceStatus := some stopped

/-! ### The EC2 product record and its constructor / resize -/

/-- The fields of `EC2Instance` relevant to its lifecycle and specs
(aws_products.py, built on `CloudResource.__init__` in
`app/domain/abstractions/products.py`). -/
structure EC2Instance : Type where
  resource_id : String
  name : String
  region : String
  status : ResourceStatus
  tags : List (String × String)
  instance_type : String
  ami : String
  vpc_id : String
  deriving DecidableEq, Repr

/-- `EC2Instance.__init__`: `super().__init__(f"i-{uuid4().hex[:8]}", name, region)`
with `CloudResource.__init__` setting `status = CREATING` and empty tags.
The uuid token is passed in explicitly. -/
def mkEC2Instance (uuidTok name region instanceType ami vpcId : String) : EC2Instance :=
  { resource_id := "i-" ++ uuidTok
    name := name
    region := region
    status := ResourceStatus.creating
    tags := []
    instance_type := instanceType
    ami := ami
    vpc_id := vpcId }

/-- `EC2Instance.resize` (aws_products.py lines 63-67): swaps `instance_type`
unconditionally — there is no status check of any kind, so it never raises. -/
def ec2Resize (vm : EC2Instance) (newInstanceType : String) : Option EC2Instance :=
  some { vm with instance_type := newInstanceType }

/-- `OracleComputeInstance.__init__` resource id (oracle_products.py line 17):
`f"oci-vm-{uuid4().hex[:8]}"`. -/
def oracleComputeResourceId (uuidTok : String) : String := "oci-vm-" ++ uuidTok

/-- `OnPremiseVirtualMachine.__init__` resource id (onprem_products.py line 17):
`f"onprem-vm-{uuid4().hex[:8]}"`. -/
def onpremVMResourceId (uuidTok : String) : String := "onprem-vm-" ++ uuidTok

/-! ### The `VMDTO` path: per-provider `VirtualMachineFactory` implementations
(`app/domain/factories/{aws,azure,gcp,onprem,oracle}.py`) -/

/-- The `VMDTO` schema fields used by the factories (id, name, provider as its
string value, status, flat string specs). -/
structure VMDTO : Type where
  id : String
  name : String
  provider : String
  status : String
  specs : List (String × String)
  deriving DecidableEq, Repr

/-- `AWSVMFactory.validate_params` then `provision` (factories/aws.py):
required params `["instance_type", "region", "vpc", "ami"]`; on success the
returned `VMDTO` has id `f"aws-{uuid4()}"` and `status="stopped"`.
The error carries the list of missing params. -/
def awsProvision (uuidTok name : String) (params : List (String × String)) :
    Except (List String) VMDTO :=
  let missing := ["instance_type", "region", "vpc", "ami"].filter
    (fun k => !(params.map Prod.fst).contains k)
  if missing.isEmpty then
    Except.ok
      { id := "aws-" ++ uuidTok
        name := name
        provider := "aws"
        status := "stopped"
        specs := params }
  else
    Except.error missing

/-- `OracleVMFactory.provision` id (factories/oracle.py line 16): `f"oracle-{uuid4()}"`;
the returned status is `"stopped"` (line 26). -/
def oracleProvisionId (uuidTok : String) : String := "oracle-" ++ uuidTok

/-- `AWSVMFactory.apply_action` (factories/aws.py lines 39-48): sets the status
from the action name alone — the current status is never consulted; an unknown
action raises `ValueError("Invalid action")`.  The azure/gcp/onprem/oracle
factories have byte-for-byte identical bodies. -/
def awsApplyAction (vm : VMDTO) (action : String) : Except String VMDTO :=
  if action = "start" then Except.ok { vm with status := "running" }
  else if action = "stop" then Except.ok { vm with status := "stopped" }
  else if action = "restart" then Except.ok { vm with status := "running" }
  else Except.error "Invalid action"

/-! ### `VMRepository` (app/infrastructure/repository.py)

The backing Python `dict` is an association list in insertion order whose keys
are the stored `vm.id`s. -/

/-- A VM store: the `_store` dict of `VMRepository`. -/
abbrev VMStore : Type := List (String × VMDTO)

/-- `VMRepository.save`: `self._store[vm.id] = vm` — dict assignment keeps the
position of an existing key and appends a new key at the end. -/
def vmSave (store : VMStore) (vm : VMDTO) : VMStore :=
  if (store.map Prod.fst).contains vm.id then
    store.map (fun p => if p.1 = vm.id then (vm.id, vm) else p)
  else
    store ++ [(vm.id, vm)]

/-- `VMRepository.get`: `self._store.get(vm_id)`, raising `KeyError` (here
`none`) when absent. -/
def vmGet (store : VMStore) (vmId : String) : Option VMDTO :=
  (store.find? (fun p => p.1 = vmId)).map Prod.snd

/-- `VMRepository.delete` (repository.py lines 22-25): `del self._store[vm_id]`
after a membership check — the record is physically removed from the store. -/
def vmDelete (store : VMStore) (vmId : String) : Except String VMStore :=
  if (store.map Prod.fst).contains vmId then
    Except.ok (store.filter (fun p => p.1 ≠ vmId))
  else
    Except.error "VM not found"

/-- `VMRepository.list` (repository.py lines 27-28): `list(self._store.values())`
— every stored record, with no status filter of any kind. -/
def vmList (store : VMStore) : List VMDTO :=
  store.map Prod.snd

/-! ### `_InfrastructureRepository` (app/api/abstract_factory_controller.py)

The in-memory infrastructure store whose records carry a `status` field
(`"active" | "deleted"`).  `datetime.utcnow()` is passed in as `now : Nat`. -/

/-- The fields of `InfrastructureRecord` the repository operations touch. -/
structure InfraRecord : Type where
  id : String
  name : String
  provider : String
  region : String
  requested_by : String
  status : String
  created_at : Nat
  updated_at : Nat
  deriving DecidableEq, Repr

/-- An infrastructure store: the `_store` dict keyed by `record.id`. -/
abbrev InfraStore : Type := List (String × InfraRecord)

/-- `_InfrastructureRepository.add`: `self._store[record.id] = record`. -/
def infraAdd (store : InfraStore) (rec : InfraRecord) : InfraStore :=
  if (store.map Prod.fst).contains rec.id then
    store.map (fun p => if p.1 = rec.id then (rec.id, rec) else p)
  else
    store ++ [(rec.id, rec)]

/-- `_InfrastructureRepository.get`: plain dict lookup, no status check. -/
def infraGet (store : InfraStore) (infraId : String) : Option InfraRecord :=
  (store.find? (fun p => p.1 = infraId)).map Prod.snd

/-- `_InfrastructureRepository.list` (controller lines 137-138): only records
whose `status == "active"`. -/
def infraList (store : InfraStore) : List InfraRecord :=
  (store.map Prod.snd).filter (fun r => r.status = "active")

/-- `_InfrastructureRepository.delete` (controller lines 152-158): `KeyError`
when the id is absent or the record is not active; otherwise the record's
`status` is flipped to `"deleted"` and `updated_at` stamped, in place — the
entry stays in the store. -/
def infraDelete (store : InfraStore) (infraId : String) (now : Nat) :
    Except String InfraStore :=
  match store.find? (fun p => p.1 = infraId) with
  | none => Except.error "Infraestructura no encontrada"
  | some (_, rec) =>
    if rec.status ≠ "active" then Except.error "Infraestructura no encontrada"
    else
      Except.ok (store.map (fun p =>
        if p.1 = infraId then
          (p.1, { p.2 with status := "deleted", updated_at := now })
        else p))

/-! ### Audit logging and the two `VMService.create_vm` variants -/

/-- The JSON payload written by `audit_log` (app/infrastructure/logger.py),
restricted to the fields the claims observe (`details` is an opaque blob). -/
structure AuditEntry : Type where
  actor : String
  action : String
  vm_id : String
  provider : String
  success : Bool
  deriving DecidableEq, Repr

/-- `Except.toBool`-style success flag helper for stating audit properties. -/
def exceptOk {ε α : Type} : Except ε α → Bool
  | Except.ok _ => true
  | Except.error _ => false

/-- Legacy `VMService.create_vm` (app/domain/services.py lines 17-30), on the
AWS path (`get_factory` resolves `AWSVMFactory`): `factory.provision` runs
BEFORE any `audit_log` call and there is no try/except — when provisioning
raises, the error propagates with no audit entry emitted.  Returns the
operation result paired with the list of audit entries emitted. -/
def createVMLegacy (uuidTok actor name : String) (params : List (String × String))
    (store : VMStore) :
    Except (List String) (VMDTO × VMStore) × List AuditEntry :=
  match awsProvision uuidTok name params with
  | Except.error e => (Except.error e, [])
  | Except.ok vm =>
    (Except.ok (vm, vmSave store vm),
     [{ actor := actor, action := "create", vm_id := vm.id, provider := "aws",
        success := true }])

/-- `AWSCloudFactory._validate_config` (factories_concrete/aws_factory.py lines
136-140): collects ALL missing required fields in order and raises one error
naming the whole list. -/
def awsValidateConfig (required : List String) (keys : List String) :
    Except (List String) Unit :=
  let missing := required.filter (fun f => !keys.contains f)
  if missing.isEmpty then Except.ok () else Except.error missing

/-- `AWSCloudFactory.create_virtual_machine` (factories_concrete/aws_factory.py
lines 23-47): validates `["instance_type", "ami", "vpc_id", "region"]`, then
the region against the static AWS set, then constructs an `EC2Instance` (in
status `creating`).  Config values are flat strings here; the missing-fields
error carries the full list, the region error its message. -/
def awsCreateVirtualMachine (uuidTok name : String)
    (config : List (String × String)) : Except (List String) EC2Instance :=
  match awsValidateConfig ["instance_type", "ami", "vpc_id", "region"]
      (config.map Prod.fst) with
  | Except.error missing => Except.error missing
  | Except.ok _ =>
    let region := ((config.find? (fun p => p.1 = "region")).map Prod.snd).getD ""
    if !(["us-east-1", "us-west-1", "us-west-2", "eu-west-1", "eu-central-1",
         "ap-southeast-1", "ap-northeast-1"].contains region) then
      Except.error ["Region not supported by AWS"]
    else
      Except.ok (mkEC2Instance uuidTok name region
        (((config.find? (fun p => p.1 = "instance_type")).map Prod.snd).getD "")
        (((config.find? (fun p => p.1 = "ami")).map Prod.snd).getD "")
        (((config.find? (fun p => p.1 = "vpc_id")).map Prod.snd).getD ""))

/-- A `VMDTO` snapshot of an abstract-factory VM, as built by the newer
`VMService.create_vm` (services/vm_service.py lines 31-38):
`status = "running" if vm.status == "running" else "stopped"`. -/
def dtoOfEC2 (vm : EC2Instance) (provider : String)
    (params : List (String × String)) : VMDTO :=
  { id := vm.resource_id
    name := vm.name
    provider := provider
    status := if vm.status = ResourceStatus.running then "running" else "stopped"
    specs := params }

/-- Newer `VMService.create_vm` (app/domain/services/vm_service.py lines
20-59), on the AWS path: the whole body is wrapped in try/except — on success
it saves and emits one `success=True` entry; on any exception it emits one
`success=False` entry (with `vm_id=""`) and re-raises. -/
def createVMNew (uuidTok actor name : String) (config : List (String × String))
    (store : VMStore) :
    Except (List String) (VMDTO × VMStore) × List AuditEntry :=
  match awsCreateVirtualMachine uuidTok name config with
  | Except.error e =>
    (Except.error e,
     [{ actor := actor, action := "create", vm_id := "", provider := "aws",
        success := false }])
  | Except.ok vm =>
    let dto := dtoOfEC2 vm "aws" config
    (Except.ok (dto, vmSave store dto),
     [{ actor := actor, action := "create", vm_id := dto.id, provider := "aws",
        success := true }])

/-! ### `OnPremiseCloudFactory._validate_vm_config`
(factories_concrete/onprem_factory.py lines 125-143)

The on-premise VM config is a dict with typed values; the fields the validator
touches are modelled as optional typed fields (`none` = key absent). -/

/-- The on-premise VM creation config (subset read by `_validate_vm_config`). -/
structure OnPremVMConfig : Type where
  cpu : Option Int
  ram_gb : Option Int
  disk_gb : Option Int
  nic : Option String
  hypervisor : Option String
  deriving DecidableEq, Repr

/-- `_validate_vm_config`: a `for` loop over
`["cpu", "ram_gb", "disk_gb", "nic"]` raising at the FIRST missing field
(so the error names only that one field), then the hypervisor whitelist,
then the minimum-resource checks.  Errors are `Except.error fields` for the
missing-field raise (carrying the fields named by the message) and
value-constraint raises carry their message in the same channel via a tag. -/
inductive OnPremVMErr : Type
  | missingFields (fields : List String)
  | invalidValue (msg : String)
  deriving DecidableEq, Repr

/-- The ordered list of required on-prem VM fields that are absent from the
config — what a collect-all validator in the style of the AWS/Azure factories
would report.  Used to compare against what the code actually reports. -/
def onpremMissingVMFields (c : OnPremVMConfig) : List String :=
  (if c.cpu.isNone then ["cpu"] else []) ++
  (if c.ram_gb.isNone then ["ram_gb"] else []) ++
  (if c.disk_gb.isNone then ["disk_gb"] else []) ++
  (if c.nic.isNone then ["nic"] else [])

/-- `OnPremiseCloudFactory._validate_vm_config`, translated clause by clause. -/
def onpremValidateVMConfig (c : OnPremVMConfig) : Except OnPremVMErr Unit :=
  if c.cpu.isNone then Except.error (OnPremVMErr.missingFields ["cpu"])
  else if c.ram_gb.isNone then Except.error (OnPremVMErr.missingFields ["ram_gb"])
  else if c.disk_gb.isNone then Except.error (OnPremVMErr.missingFields ["disk_gb"])
  else if c.nic.isNone then Except.error (OnPremVMErr.missingFields ["nic"])
  else if !(["vmware", "hyperv", "kvm", "xen"].contains (c.hypervisor.getD "vmware")) then
    Except.error (OnPremVMErr.invalidValue "Hipervisor invalido para OnPrem")
  else if c.cpu.getD 0 < 1 then Except.error (OnPremVMErr.invalidValue "CPU minimo: 1 core")
  else if c.ram_gb.getD 0 < 1 then Except.error (OnPremVMErr.invalidValue "RAM minima: 1GB")
  else if c.disk_gb.getD 0 < 10 then Except.error (OnPremVMErr.invalidValue "Disco minimo: 10GB")
  else Except.ok ()

/-! ### `LogService` (app/domain/services/log_service.py)

The parsed audit-log schema (`app/domain/schemas/logs.py`) and the
filter / sort / paginate pipeline of `get_logs`, plus `get_stats`.
The log file is modelled as the list of its lines, each line being blank,
malformed (fails `json.loads` / model validation) or a well-formed entry. -/

/-- `AuditLogEntry` (schemas/logs.py): `details` is an opaque optional blob,
modelled as an optional string. -/
structure AuditLogEntry : Type where
  timestamp : String
  actor : String
  action : String
  vm_id : String
  provider : String
  success : Bool
  details : Option String
  deriving DecidableEq, Repr

/-- `LogsQuery` (schemas/logs.py). -/
structure LogsQuery : Type where
  actor : Option String
  action : Option String
  provider : Option String
  success : Option Bool
  vm_id : Option String
  page : Nat
  page_size : Nat
  deriving DecidableEq, Repr

/-- Boolean list-prefix test (structural, so concrete runs reduce). -/
def listPrefixB : List Char → List Char → Bool
  | [], _ => true
  | _ :: _, [] => false
  | a :: as, b :: bs => a = b && listPrefixB as bs

/-- Boolean list-infix test: Python `needle in hay` on strings. -/
def listInfixB (n : List Char) : List Char → Bool
  | [] => n.isEmpty
  | c :: t => listPrefixB n (c :: t) || listInfixB n t

/-- Python `str.lower()` (ASCII case fold), over the character list. -/
def strLower (s : String) : List Char := s.data.map Char.toLower

/-- Case-insensitive substring test: Python `needle.lower() in hay.lower()`. -/
def substrCI (needle hay : String) : Bool :=
  listInfixB (strLower needle) (strLower hay)

/-- One filter step: Python `if query.actor:` is truthiness — the filter is
skipped both for `None` and for the empty string. -/
def filterStep (field : AuditLogEntry → String) (q : Option String)
    (logs : List AuditLogEntry) : List AuditLogEntry :=
  match q with
  | none => logs
  | some needle =>
    if needle = "" then logs else logs.filter (fun e => substrCI needle (field e))

/-- `LogService._apply_filters` (log_service.py lines 66-85): the five filters
applied in sequence (AND), substrings case-insensitive, `success` exact and
applied whenever it is not `None`. -/
def applyFilters (q : LogsQuery) (logs : List AuditLogEntry) : List AuditLogEntry :=
  let l1 := filterStep (fun e => e.actor) q.actor logs
  let l2 := filterStep (fun e => e.action) q.action l1
  let l3 := filterStep (fun e => e.provider) q.provider l2
  let l4 := match q.success with
    | none => l3
    | some b => l3.filter (fun e => e.success = b)
  filterStep (fun e => e.vm_id) q.vm_id l4

/-- Newest-first order on entries: `b` may come after `a` when
`b.timestamp ≤ a.timestamp` (Python sorts by the ISO-8601 timestamp string,
descending). -/
def tsDesc (a b : AuditLogEntry) : Prop := b.timestamp ≤ a.timestamp

instance : DecidableRel tsDesc := fun a b =>
  inferInstanceAs (Decidable (b.timestamp ≤ a.timestamp))

instance : IsTotal AuditLogEntry tsDesc :=
  ⟨fun a b => le_total b.timestamp a.timestamp⟩

instance : IsTrans AuditLogEntry tsDesc :=
  ⟨fun _ _ _ h1 h2 => le_trans h2 h1⟩

/-- One line of the audit log file as `get_logs`/`get_stats` see it: blank
lines are skipped, lines that fail `json.loads` or `AuditLogEntry(**...)`
are skipped with a warning, well-formed lines parse to an entry. -/
inductive LogLine : Type
  | blank
  | malformed (raw : String)
  | valid (e : AuditLogEntry)
  deriving DecidableEq, Repr

/-- The per-line parse result of the reading loops in `get_logs`/`get_stats`. -/
def parseLine : LogLine → Option AuditLogEntry
  | LogLine.blank => none
  | LogLine.malformed _ => none
  | LogLine.valid e => some e

/-- `LogService.get_logs` (log_service.py lines 15-64) after the file read:
filter, stable sort by timestamp descending, `total = len(filtered)`, then the
1-indexed page slice.  Returns `(paginated_logs, total)`. -/
def getLogs (q : LogsQuery) (fileLines : List LogLine) :
    List AuditLogEntry × Nat :=
  let allLogs := fileLines.filterMap parseLine
  let filtered := applyFilters q allLogs
  let sorted := filtered.insertionSort tsDesc
  let total := sorted.length
  ((sorted.drop ((q.page - 1) * q.page_size)).take q.page_size, total)

/-- The dictionary returned by `get_stats`, minus the frequency tables'
internal order (association lists in first-seen order). -/
structure LogStats : Type where
  total_operations : Nat
  successful_operations : Nat
  failed_operations : Nat
  providers : List (String × Nat)
  actions : List (String × Nat)
  deriving DecidableEq, Repr

/-- `d[k] = d.get(k, 0) + 1` over an association list in first-seen order. -/
def bumpCount (counts : List (String × Nat)) (key : String) : List (String × Nat) :=
  if (counts.map Prod.fst).contains key then
    counts.map (fun p => if p.1 = key then (p.1, p.2 + 1) else p)
  else
    counts ++ [(key, 1)]

/-- `LogService.get_stats` (log_service.py lines 93-138): one full scan, the
malformed lines skipped by the same per-line parse as `get_logs`. -/
def getStats (fileLines : List LogLine) : LogStats :=
  let allLogs := fileLines.filterMap parseLine
  let total := allLogs.length
  let successful := (allLogs.filter (fun e => e.success)).length
  { total_operations := total
    successful_operations := successful
    failed_operations := total - successful
    providers := allLogs.foldl (fun acc e => bumpCount acc e.provider) []
    actions := allLogs.foldl (fun acc e => bumpCount acc e.action) [] }

/-- Inversion helper: what a successful `AWSVMFactory.provision` returns. -/
theorem awsProvision_ok (tok n : String) (params : List (String × String))
    (vm : VMDTO) (h : awsProvision tok n params = Except.ok vm) :
    vm = { id := "aws-" ++ tok, name := n, provider := "aws",
           status := "stopped", specs := params } := by
  unfold awsProvision at h
  dsimp only at h
  split at h
  · cases h; rfl
  · exact Except.noConfusion h

/-! ## Claim C1 — lifecycle state machine -/

/-- C1 counterexample.  The claim says that for EVERY resource, `start`
succeeds exactly when the status is `stopped` (so from `running` it must fail
with `InvalidTransition`).  `OnPremiseVirtualMachine.start` (onprem_products.py
lines 29-31) succeeds from `running`: it unconditionally sets the status to
`running` and returns normally. -/
theorem c1_counterexample :
    onpremVMStart ResourceStatus.running = some ResourceStatus.running ∧
    onpremVMStart ResourceStatus.running ≠ none := by
  exact ⟨rfl, by decide⟩

/-- C1 amended.  The guarded state machine of the claim holds for the AWS EC2
and Azure VM products (start only from `stopped` to `running`, stop and
restart only from `running`, any other transition fails and — failure being a
raise — leaves the status unchanged).  The GCP, Oracle and on-premise VM
products apply start/stop/restart unconditionally from every state, and the
per-provider `VirtualMachineFactory.apply_action` sets the status from the
action name alone, never consulting the current status; only an unknown
action name fails there. -/
theorem c1_amended :
    (∀ s, ec2Start s =
      if s = ResourceStatus.stopped then some ResourceStatus.running else none) ∧
    (∀ s, ec2Stop s =
      if s = ResourceStatus.running then some ResourceStatus.stopped else none) ∧
    (∀ s, ec2Restart s =
      if s = ResourceStatus.running then some ResourceStatus.running else none) ∧
    (∀ s, azureVMStart s =
      if s = ResourceStatus.stopped then some ResourceStatus.running else none) ∧
    (∀ s, azureVMStop s =
      if s = ResourceStatus.running then some ResourceStatus.stopped else none) ∧
    (∀ s, azureVMRestart s =
      if s = ResourceStatus.running then some ResourceStatus.running else none) ∧
    (∀ s, onpremVMStart s = some ResourceStatus.running ∧
          onpremVMStop s = some ResourceStatus.stopped ∧
          onpremVMRestart s = some ResourceStatus.running) ∧
    (∀ s, oracleVMStart s = some ResourceStatus.running ∧
          oracleVMStop s = some ResourceStatus.stopped ∧
          oracleVMRestart s = some ResourceStatus.running) ∧
    (∀ s, gcpVMStart s = some ResourceStatus.running ∧
          gcpVMStop s = some ResourceStatus.stopped) ∧
    (∀ vm, awsApplyAction vm "start" = Except.ok { vm with status := "running" } ∧
           awsApplyAction vm "stop" = Except.ok { vm with status := "stopped" } ∧
           awsApplyAction vm "restart" = Except.ok { vm with status := "running" } ∧
           awsApplyAction vm "terminate" = Except.error "Invalid action") := by
  refine ⟨?_, ?_, ?_, ?_, ?_, ?_, ?_, ?_, ?_, ?_⟩
  all_goals first
    | (intro s; cases s <;> rfl)
    | (intro s; exact ⟨rfl, rfl, rfl⟩)
    | (intro s; exact ⟨rfl, rfl⟩)
    | (intro vm; exact ⟨rfl, rfl, rfl, rfl⟩)

/-! ## Claim C5 — resize legality -/

/-- C5 counterexample.  The claim says `resize` fails with `InvalidTransition`
while the status is `deleting`.  `EC2Instance.resize` (aws_products.py lines
63-67) has no status check whatsoever: on an instance in status `deleting` it
succeeds and swaps the instance type. -/
theorem c5_counterexample :
    ec2Resize
      { resource_id := "i-0a1b2c3d", name := "web", region := "us-east-1",
        status := ResourceStatus.deleting, tags := [],
        instance_type := "t2.micro", ami := "ami-1", vpc_id := "vpc-1" }
      "t3.large"
    = some
      { resource_id := "i-0a1b2c3d", name := "web", region := "us-east-1",
        status := ResourceStatus.deleting, tags := [],
        instance_type := "t3.large", ami := "ami-1", vpc_id := "vpc-1" } := rfl

/-- C5 amended.  `resize(new_size)` is legal in EVERY state — including
`deleting` — and never fails: it swaps the size-class field
(`instance_type`) while leaving the status (and identity) unchanged. -/
theorem c5_amended :
    ∀ (vm : EC2Instance) (newType : String),
      ∃ vm2, ec2Resize vm newType = some vm2 ∧
        vm2.status = vm.status ∧
        vm2.instance_type = newType ∧
        vm2.resource_id = vm.resource_id ∧
        vm2.name = vm.name := by
  intro vm newType
  exact ⟨{ vm with instance_type := newType }, rfl, rfl, rfl, rfl, rfl⟩

/-! ## Claim C6 — initial status on creation -/

/-- C6 counterexample.  The claim says every creation operation returns a
resource in initial status `creating`.  `AWSVMFactory.provision`
(factories/aws.py line 24) returns a `VMDTO` with `status="stopped"` on a
fully valid parameter set. -/
theorem c6_counterexample :
    awsProvision "u1" "web"
      [("instance_type", "t2.micro"), ("region", "us-east-1"),
       ("vpc", "vpc-1"), ("ami", "ami-1")]
    = Except.ok
      { id := "aws-u1", name := "web", provider := "aws", status := "stopped",
        specs := [("instance_type", "t2.micro"), ("region", "us-east-1"),
                  ("vpc", "vpc-1"), ("ami", "ami-1")] } ∧
    ("stopped" : String) ≠ "creating" := by
  exact ⟨rfl, by decide⟩

/-- C6 amended.  Abstract-factory products are constructed in status
`creating` (via `CloudResource.__init__`), as the claim says; but the
`VirtualMachineFactory.provision` path returns its `VMDTO` directly in status
`"stopped"`, never `"creating"`.  In neither path is the returned status
`running`: creation never implicitly starts the resource. -/
theorem c6_amended :
    ∀ (tok n r it ami vpc : String) (params : List (String × String)),
      (mkEC2Instance tok n r it ami vpc).status = ResourceStatus.creating ∧
      (mkEC2Instance tok n r it ami vpc).status ≠ ResourceStatus.running ∧
      (match awsProvision tok n params with
       | Except.ok vm => vm.status = "stopped" ∧ vm.status ≠ "running"
       | Except.error _ => True) := by
  intro tok n r it ami vpc params
  refine ⟨rfl, fun h => ResourceStatus.noConfusion h, ?_⟩
  cases h : awsProvision tok n params with
  | error e => trivial
  | ok vm =>
    have hv := awsProvision_ok tok n params vm h
    subst hv
    exact ⟨rfl, fun hc => (by decide : ("stopped" : String) ≠ "running") hc⟩

/-! ## Claim C7 — resource id prefixes and uniqueness -/

/-- C7 counterexample.  The claim says every creation prefixes the
`resource_id` with the provider's short code (`aws-` for AWS).
`EC2Instance.__init__` (aws_products.py line 15) builds the id as
`f"i-{uuid4().hex[:8]}"`: for the uuid token `0a1b2c3d` the id is
`i-0a1b2c3d`, which does not start with `aws-`. -/
theorem c7_counterexample :
    (mkEC2Instance "0a1b2c3d" "web" "us-east-1" "t2.micro" "ami-1"
      "vpc-1").resource_id = "i-0a1b2c3d" ∧
    ¬ ("aws-".data <+: (mkEC2Instance "0a1b2c3d" "web" "us-east-1" "t2.micro"
      "ami-1" "vpc-1").resource_id.data) := by
  exact ⟨rfl, by decide⟩

/-- C7 amended.  The `VirtualMachineFactory.provision` path does prefix ids
with the provider short code (`aws-`, `oracle-`, ...), but the
abstract-factory products use resource-type prefixes instead: `i-` for EC2,
`oci-vm-` for Oracle compute, `onprem-vm-` for on-premise VMs.  Ids are
pairwise distinct whenever the underlying uuid tokens are distinct. -/
theorem c7_amended :
    ∀ (t1 t2 n r it ami vpc : String) (params : List (String × String)),
      ("i-".data <+: (mkEC2Instance t1 n r it ami vpc).resource_id.data) ∧
      ("oci-vm-".data <+: (oracleComputeResourceId t1).data) ∧
      ("onprem-vm-".data <+: (onpremVMResourceId t1).data) ∧
      ("oracle-".data <+: (oracleProvisionId t1).data) ∧
      (match awsProvision t1 n params with
       | Except.ok vm => ("aws-".data <+: vm.id.data)
       | Except.error _ => True) ∧
      (t1 ≠ t2 → oracleProvisionId t1 ≠ oracleProvisionId t2) ∧
      (t1 ≠ t2 → (mkEC2Instance t1 n r it ami vpc).resource_id ≠
                 (mkEC2Instance t2 n r it ami vpc).resource_id) := by
  intro t1 t2 n r it ami vpc params
  have hpre : ∀ (p t : String), (p.data <+: (p ++ t).data) := by
    intro p t
    rw [String.data_append]
    exact List.prefix_append _ _
  have hinj : ∀ (p t1 t2 : String), t1 ≠ t2 → (p ++ t1) ≠ (p ++ t2) := by
    intro p u1 u2 h hc
    apply h
    have hd := congrArg String.data hc
    rw [String.data_append, String.data_append] at hd
    have h2 := List.append_cancel_left hd
    cases u1; cases u2; exact congrArg String.mk h2
  refine ⟨hpre "i-" t1, hpre "oci-vm-" t1, hpre "onprem-vm-" t1,
         hpre "oracle-" t1, ?_, hinj "oracle-" t1 t2, hinj "i-" t1 t2⟩
  cases h : awsProvision t1 n params with
  | error e => trivial
  | ok vm =>
    have hv := awsProvision_ok t1 n params vm h
    subst hv
    exact hpre "aws-" t1

/-- C7 witness: the amended theorem applied at the concrete tokens `u1`/`u2`,
discharging the distinct-token hypotheses. -/
theorem c7_witness :
    oracleProvisionId "u1" ≠ oracleProvisionId "u2" ∧
    (mkEC2Instance "u1" "web" "us-east-1" "t2.micro" "ami-1"
      "vpc-1").resource_id ≠
    (mkEC2Instance "u2" "web" "us-east-1" "t2.micro" "ami-1"
      "vpc-1").resource_id := by
  refine ⟨(c7_amended "u1" "u2" "web" "us-east-1" "t2.micro" "ami-1" "vpc-1"
    []).2.2.2.2.2.1 (by decide), ?_⟩
  exact (c7_amended "u1" "u2" "web" "us-east-1" "t2.micro" "ami-1" "vpc-1"
    []).2.2.2.2.2.2 (by decide)

/-! ## Claim C4 — validation of missing required fields -/

/-- C4 counterexample.  The claim says a validation failure names EXACTLY the
full set of missing fields, never just the first one.  For an on-premise VM
config missing both `cpu` and `ram_gb`,
`OnPremiseCloudFactory._validate_vm_config` (onprem_factory.py lines 127-130)
raises at the first iteration of its `for` loop and names only `cpu`. -/
theorem c4_counterexample :
    onpremValidateVMConfig
      { cpu := none, ram_gb := none, disk_gb := some 50, nic := some "eth0",
        hypervisor := none }
      = Except.error (OnPremVMErr.missingFields ["cpu"]) ∧
    onpremMissingVMFields
      { cpu := none, ram_gb := none, disk_gb := some 50, nic := some "eth0",
        hypervisor := none } = ["cpu", "ram_gb"] := by
  exact ⟨rfl, rfl⟩

/-- C4 amended.  The AWS (and Azure) `_validate_config` reports the FULL
ordered list of missing required fields and succeeds exactly when none is
missing; the on-premise (and GCP, Oracle) validators instead raise at the
FIRST missing required field, naming only that one — and once every required
field is present they never report a missing-fields error (any further
failure is a value-constraint error). -/
theorem c4_amended :
    (∀ (required keys : List String),
      (awsValidateConfig required keys = Except.ok () ↔
        required.filter (fun f => !keys.contains f) = []) ∧
      (∀ fs, awsValidateConfig required keys = Except.error fs →
        fs = required.filter (fun f => !keys.contains f) ∧ fs ≠ [])) ∧
    (∀ (c : OnPremVMConfig) (f : String) (fs : List String),
      onpremMissingVMFields c = f :: fs →
      onpremValidateVMConfig c = Except.error (OnPremVMErr.missingFields [f])) ∧
    (∀ c : OnPremVMConfig, onpremMissingVMFields c = [] →
      ∀ fs, onpremValidateVMConfig c ≠
        Except.error (OnPremVMErr.missingFields fs)) := by
  have awsEq : ∀ (required keys : List String),
      awsValidateConfig required keys =
        if required.filter (fun f => !keys.contains f) = []
        then Except.ok ()
        else Except.error (required.filter (fun f => !keys.contains f)) := by
    intro required keys
    unfold awsValidateConfig
    dsimp only
    by_cases h : required.filter (fun f => !keys.contains f) = []
    · rw [if_pos h, if_pos]
      rwa [List.isEmpty_iff]
    · rw [if_neg h, if_neg]
      rw [List.isEmpty_iff]
      exact h
  refine ⟨?_, ?_, ?_⟩
  · intro required keys
    rw [awsEq]
    by_cases h : required.filter (fun f => !keys.contains f) = []
    · rw [if_pos h]
      exact ⟨⟨fun _ => h, fun _ => rfl⟩, fun fs hc => Except.noConfusion hc⟩
    · rw [if_neg h]
      refine ⟨⟨fun hc => Except.noConfusion hc, fun hnil => absurd hnil h⟩, ?_⟩
      intro fs hc
      cases hc
      exact ⟨rfl, h⟩
  · intro c f fs h
    obtain ⟨cpu, ram, disk, nic, hyp⟩ := c
    cases cpu <;> cases ram <;> cases disk <;> cases nic <;>
      simp_all [onpremMissingVMFields, onpremValidateVMConfig]
  · intro c h fs
    obtain ⟨cpu, ram, disk, nic, hyp⟩ := c
    cases cpu <;> cases ram <;> cases disk <;> cases nic <;>
      simp_all [onpremMissingVMFields, onpremValidateVMConfig]
    split_ifs <;> simp

/-- C4 witness: the amended theorem applied to a concrete AWS VM config
missing `ami` and `vpc_id` (the full pair is reported) and to a concrete
fully-populated on-premise config (no missing-fields error). -/
theorem c4_witness :
    (∀ fs, awsValidateConfig ["instance_type", "ami", "vpc_id", "region"]
        ["instance_type", "region"] = Except.error fs →
      fs = ["ami", "vpc_id"] ∧ fs ≠ []) ∧
    (∀ fs, onpremValidateVMConfig
        { cpu := some 2, ram_gb := some 4, disk_gb := some 50,
          nic := some "eth0", hypervisor := none } ≠
      Except.error (OnPremVMErr.missingFields fs)) := by
  constructor
  · intro fs hc
    have h := (c4_amended.1 ["instance_type", "ami", "vpc_id", "region"]
      ["instance_type", "region"]).2 fs hc
    exact ⟨by rw [h.1]; rfl, h.2⟩
  · exact c4_amended.2.2
      { cpu := some 2, ram_gb := some 4, disk_gb := some 50,
        nic := some "eth0", hypervisor := none } (by rfl)

/-! ## Claim C2 — delete semantics of the two repositories -/

/-- C2 counterexample.  The claim says that for every VM record id present in
the repository, `delete(id)` flips the status and never erases the stored
record.  `VMRepository.delete` (repository.py lines 22-25) runs
`del self._store[vm_id]`: on a store holding the single record `aws-u1`, the
store afterwards is empty — the record is physically gone, and `list()` is
empty not because of a status filter but because nothing is stored. -/
theorem c2_counterexample :
    vmDelete [("aws-u1",
      { id := "aws-u1", name := "web", provider := "aws", status := "stopped",
        specs := [] })] "aws-u1" = Except.ok [] ∧
    vmGet [] "aws-u1" = none ∧
    vmList ([] : VMStore) = [] := by
  exact ⟨rfl, rfl, rfl⟩

/-- First match under a key-preserving in-place update commutes with the
update. -/
theorem find?_map_key (store : InfraStore) (infraId : String)
    (g : InfraRecord → InfraRecord) :
    (store.map (fun p => if p.1 = infraId then (p.1, g p.2) else p)).find?
        (fun p => p.1 = infraId) =
      (store.find? (fun p => p.1 = infraId)).map
        (fun p => if p.1 = infraId then (p.1, g p.2) else p) := by
  induction store with
  | nil => rfl
  | cons hd tl ih =>
    by_cases h : hd.1 = infraId
    · rw [List.map_cons, if_pos h,
        List.find?_cons_of_pos _ (by simpa using h),
        List.find?_cons_of_pos _ (by simpa using h)]
      simp [h]
    · rw [List.map_cons, if_neg h,
        List.find?_cons_of_neg _ (by simpa using h),
        List.find?_cons_of_neg _ (by simpa using h)]
      exact ih

/-- C2 amended.  The claim is true of the infrastructure repository
(`_InfrastructureRepository` in abstract_factory_controller.py): a successful
`delete` keeps every stored entry (same keys, same count), leaves the target
record in the store with status `deleted`, and the deleted record is excluded
from `list()`, which returns only `active` records.  It is false of
`VMRepository` (repository.py), whose `delete` physically erases the record
(the counterexample) and whose `list` applies no status filter. -/
theorem c2_amended :
    (∀ (store : InfraStore) (rec : InfraRecord),
      rec ∈ infraList store → rec.status = "active") ∧
    (∀ (store : InfraStore) (infraId : String) (now : Nat)
        (store2 : InfraStore),
      infraDelete store infraId now = Except.ok store2 →
      store2.map Prod.fst = store.map Prod.fst ∧
      store2.length = store.length ∧
      (∃ rec2, infraGet store2 infraId = some rec2 ∧
        rec2.status = "deleted" ∧ rec2 ∉ infraList store2)) := by
  have hlist : ∀ (store : InfraStore) (rec : InfraRecord),
      rec ∈ infraList store → rec.status = "active" := by
    intro store rec h
    unfold infraList at h
    rw [List.mem_filter] at h
    exact of_decide_eq_true h.2
  refine ⟨hlist, ?_⟩
  intro store infraId now store2 h
  unfold infraDelete at h
  cases hf : store.find? (fun p => p.1 = infraId) with
  | none => rw [hf] at h; exact Except.noConfusion h
  | some pr =>
    obtain ⟨k, rec⟩ := pr
    rw [hf] at h
    dsimp only at h
    split at h
    · exact Except.noConfusion h
    · cases h
      have hk : k = infraId := by
        have := List.find?_some hf
        simpa using this
      refine ⟨?_, ?_, ?_⟩
      · rw [List.map_map]
        refine List.map_congr_left ?_
        intro p _
        by_cases hp : p.1 = infraId
        · simp [hp]
        · simp [hp]
      · rw [List.length_map]
      · refine ⟨{ rec with status := "deleted", updated_at := now }, ?_, rfl, ?_⟩
        · unfold infraGet
          rw [find?_map_key store infraId
            (fun r => { r with status := "deleted", updated_at := now }), hf]
          simp [hk]
        · intro hmem
          have h1 : ("deleted" : String) = "active" := hlist _ _ hmem
          exact absurd h1 (by decide)

/-- The one-record active infrastructure store used by the C2 witness. -/
def c2recA : InfraRecord :=
  { id := "i1", name := "web", provider := "aws", region := "us-east-1",
    requested_by := "admin", status := "active", created_at := 0,
    updated_at := 0 }

/-- `c2recA` after `infraDelete` at tick 7. -/
def c2recD : InfraRecord :=
  { id := "i1", name := "web", provider := "aws", region := "us-east-1",
    requested_by := "admin", status := "deleted", created_at := 0,
    updated_at := 7 }

/-- C2 witness: the amended theorem applied to a concrete one-record
infrastructure store; the delete succeeds and the record survives with
status `deleted`, excluded from the active listing. -/
theorem c2_witness :
    c2recA.status = "active" ∧
    (∃ rec2, infraGet [("i1", c2recD)] "i1" = some rec2 ∧
      rec2.status = "deleted" ∧ rec2 ∉ infraList [("i1", c2recD)]) := by
  constructor
  · exact c2_amended.1 [("i1", c2recA)] c2recA
      (List.mem_singleton.mpr rfl)
  · exact (c2_amended.2 [("i1", c2recA)] "i1" 7 [("i1", c2recD)] rfl).2.2

/-! ## Claim C3 — one audit entry per mutating attempt -/

/-- C3 counterexample.  The claim says every failing mutating operation emits
exactly one `success=false` audit entry before the error propagates.  In the
legacy `VMService.create_vm` (services.py lines 17-30) `factory.provision`
runs before any `audit_log` call and nothing catches its exception: on a
create request whose AWS params lack `region`, `vpc` and `ami`, the error
propagates and the emitted audit-entry list is empty. -/
theorem c3_counterexample :
    createVMLegacy "u1" "admin" "web" [("instance_type", "t2.micro")] []
      = (Except.error ["region", "vpc", "ami"], []) := by
  rfl

/-- C3 amended.  The newer `VMService.create_vm` (services/vm_service.py)
emits exactly one audit entry per attempt — `success=true` exactly when the
operation succeeds, `success=false` exactly when it fails, the entry emitted
before the error re-raises.  The legacy `VMService.create_vm` (services.py)
emits exactly one `success=true` entry on success but NO entry at all on a
provisioning failure. -/
theorem c3_amended :
    ∀ (tok actor name : String) (params : List (String × String))
      (store : VMStore),
      ((createVMNew tok actor name params store).2.map AuditEntry.success)
        = [exceptOk (createVMNew tok actor name params store).1] ∧
      ((createVMLegacy tok actor name params store).2.map AuditEntry.success)
        = (match (createVMLegacy tok actor name params store).1 with
           | Except.ok _ => [true]
           | Except.error _ => []) := by
  intro tok actor name params store
  constructor
  · unfold createVMNew
    cases h : awsCreateVirtualMachine tok name params with
    | error e => simp [exceptOk]
    | ok vm => simp [exceptOk]
  · unfold createVMLegacy
    cases h : awsProvision tok name params with
    | error e => simp
    | ok vm => simp

/-! ## Claim C9 — malformed log lines are skipped, not fatal -/

/-- `parseLine` succeeds on every line of an all-well-formed chunk. -/
theorem length_filterMap_valid (l : List LogLine)
    (h : ∀ x ∈ l, ∃ e, x = LogLine.valid e) :
    (l.filterMap parseLine).length = l.length := by
  induction l with
  | nil => rfl
  | cons hd tl ih =>
    obtain ⟨e, he⟩ := h hd (List.mem_cons_self hd tl)
    subst he
    rw [List.filterMap_cons]
    simp only [parseLine, List.length_cons]
    rw [ih (fun x hx => h x (List.mem_cons_of_mem _ hx))]

/-- C9 confirmed.  A log file of well-formed lines with one malformed line
inserted anywhere yields exactly the number of well-formed lines in
`get_stats()`: the malformed line is skipped (`json.JSONDecodeError` →
`continue`) and does not abort the scan. -/
theorem c9_stats_skips_malformed :
    ∀ (l1 l2 : List LogLine) (raw : String),
      (∀ x ∈ l1, ∃ e, x = LogLine.valid e) →
      (∀ x ∈ l2, ∃ e, x = LogLine.valid e) →
      (getStats (l1 ++ LogLine.malformed raw :: l2)).total_operations
        = l1.length + l2.length := by
  intro l1 l2 raw h1 h2
  unfold getStats
  dsimp only
  rw [List.filterMap_append, List.filterMap_cons]
  simp only [parseLine]
  rw [List.length_append, length_filterMap_valid l1 h1,
    length_filterMap_valid l2 h2]

/-- A concrete well-formed audit entry (used by witnesses). -/
def mkEntry (ts prov : String) (ok : Bool) : AuditLogEntry :=
  { timestamp := ts, actor := "admin", action := "create", vm_id := "aws-1",
    provider := prov, success := ok, details := none }

/-- C9 witness: two well-formed lines around one corrupt line give
`total_operations = 2`. -/
theorem c9_witness :
    (getStats [LogLine.valid (mkEntry "2024-01-01T00:00:00Z" "aws" true),
      LogLine.malformed "not json",
      LogLine.valid (mkEntry "2024-01-02T00:00:00Z" "gcp"
        false)]).total_operations = 2 := by
  exact c9_stats_skips_malformed
    [LogLine.valid (mkEntry "2024-01-01T00:00:00Z" "aws" true)]
    [LogLine.valid (mkEntry "2024-01-02T00:00:00Z" "gcp" false)]
    "not json"
    (fun x hx => ⟨mkEntry "2024-01-01T00:00:00Z" "aws" true,
      List.mem_singleton.mp hx⟩)
    (fun x hx => ⟨mkEntry "2024-01-02T00:00:00Z" "gcp" false,
      List.mem_singleton.mp hx⟩)

/-! ## Claim C10 — save is an upsert, get its exact retrieval -/

/-- The reachable-state invariant of `VMRepository._store`: every entry is
keyed by its record's id, and keys are unique (a Python dict cannot hold a
key twice). -/
def goodVMStore (store : VMStore) : Prop :=
  (∀ p ∈ store, p.1 = p.2.id) ∧ (store.map Prod.fst).Nodup

/-- Lookup after appending a fresh key finds the appended record. -/
theorem vmGet_append_self (store : VMStore) (v : VMDTO)
    (h : ¬ (store.map Prod.fst).contains v.id = true) :
    vmGet (store ++ [(v.id, v)]) v.id = some v := by
  induction store with
  | nil => simp [vmGet]
  | cons hd tl ih =>
    have h1 : hd.1 ≠ v.id := by
      intro hcc
      apply h
      rw [List.map_cons, List.contains_cons]
      simp [hcc]
    have h2 : ¬ (tl.map Prod.fst).contains v.id = true := by
      intro hcc
      apply h
      rw [List.map_cons, List.contains_cons, hcc, Bool.or_true]
    unfold vmGet at ih ⊢
    rw [List.cons_append, List.find?_cons_of_neg _ (by simpa using h1)]
    exact ih h2

/-- Lookup after an in-place replacement of the key finds the new record. -/
theorem vmGet_replace (store : VMStore) (v : VMDTO)
    (h : (store.map Prod.fst).contains v.id = true) :
    vmGet (store.map (fun p => if p.1 = v.id then (v.id, v) else p)) v.id
      = some v := by
  induction store with
  | nil => simp at h
  | cons hd tl ih =>
    by_cases h1 : hd.1 = v.id
    · unfold vmGet
      rw [List.map_cons, if_pos h1, List.find?_cons_of_pos _ (by simp)]
      rfl
    · have h2 : (tl.map Prod.fst).contains v.id = true := by
        rw [List.map_cons, List.contains_cons] at h
        simp only [Bool.or_eq_true, beq_iff_eq] at h
        rcases h with hcc | hcc
        · exact absurd hcc.symm h1
        · exact hcc
      unfold vmGet at ih ⊢
      rw [List.map_cons, if_neg h1,
        List.find?_cons_of_neg _ (by simpa using h1)]
      exact ih h2

/-- Among entries whose keys all differ from `v.id`, an in-place replacement
changes nothing and no listed record carries the id `v.id`. -/
theorem filter_id_none (tl : VMStore) (v : VMDTO)
    (hgood : ∀ p ∈ tl, p.1 = p.2.id)
    (hkeys : ∀ p ∈ tl, p.1 ≠ v.id) :
    ((tl.map (fun p => if p.1 = v.id then (v.id, v) else p)).map
      Prod.snd).filter (fun w => w.id = v.id) = [] := by
  induction tl with
  | nil => rfl
  | cons hd tl2 ih =>
    have h1 : hd.1 ≠ v.id := hkeys hd (List.mem_cons_self hd tl2)
    have hid : hd.2.id ≠ v.id := by
      rw [← hgood hd (List.mem_cons_self hd tl2)]
      exact h1
    rw [List.map_cons, if_neg h1, List.map_cons,
      List.filter_cons_of_neg (by simpa using hid)]
    exact ih (fun p hp => hgood p (List.mem_cons_of_mem _ hp))
      (fun p hp => hkeys p (List.mem_cons_of_mem _ hp))

/-- C10 confirmed.  On every reachable repository state, `save` is an upsert
and `get` its exact retrieval: after `save(v)`, `get(v.id)` returns `v`
(`save` is total — re-saving an existing id raises nothing and silently
replaces the old record), and `list()` afterwards contains exactly one record
with that id. -/
theorem c10_save_get_upsert :
    ∀ (store : VMStore) (v : VMDTO), goodVMStore store →
      vmGet (vmSave store v) v.id = some v ∧
      ((vmList (vmSave store v)).filter (fun w => w.id = v.id)).length = 1 := by
  intro store v hgood
  obtain ⟨hkeys, hnd⟩ := hgood
  unfold vmSave
  by_cases hc : (store.map Prod.fst).contains v.id = true
  · rw [if_pos hc]
    refine ⟨vmGet_replace store v hc, ?_⟩
    unfold vmList
    induction store with
    | nil => simp at hc
    | cons hd tl ih =>
      by_cases h1 : hd.1 = v.id
      · rw [List.map_cons, if_pos h1, List.map_cons,
          List.filter_cons_of_pos (by simp)]
        have htl : ∀ p ∈ tl, p.1 ≠ v.id := by
          intro p hp hpc
          have : hd.1 ∈ tl.map Prod.fst := by
            rw [h1, ← hpc]
            exact List.mem_map_of_mem Prod.fst hp
          exact (List.nodup_cons.mp (by simpa using hnd)).1 this
        rw [filter_id_none tl v
          (fun p hp => hkeys p (List.mem_cons_of_mem _ hp)) htl]
        rfl
      · have h2 : (tl.map Prod.fst).contains v.id = true := by
          simp only [List.map_cons, List.contains_cons, Bool.or_eq_true,
            beq_iff_eq] at hc
          rcases hc with hcc | hcc
          · exact absurd hcc.symm h1
          · simpa using hcc
        have hid : hd.2.id ≠ v.id := by
          rw [← hkeys hd (List.mem_cons_self hd tl)]
          exact h1
        rw [List.map_cons, if_neg h1, List.map_cons,
          List.filter_cons_of_neg (by simpa using hid)]
        exact ih (fun p hp => hkeys p (List.mem_cons_of_mem _ hp))
          (List.Nodup.of_cons (by simpa using hnd)) h2
  · rw [if_neg hc]
    refine ⟨vmGet_append_self store v hc, ?_⟩
    unfold vmList
    rw [List.map_append]
    rw [List.filter_append]
    have hnone : (store.map Prod.snd).filter (fun w => w.id = v.id) = [] := by
      induction store with
      | nil => rfl
      | cons hd tl ih =>
        have h1 : hd.1 ≠ v.id := by
          intro hcc
          exact hc (by simp [hcc])
        have hid : hd.2.id ≠ v.id := by
          rw [← hkeys hd (List.mem_cons_self hd tl)]
          exact h1
        rw [List.map_cons, List.filter_cons_of_neg (by simpa using hid)]
        exact ih (fun p hp => hkeys p (List.mem_cons_of_mem _ hp))
          (List.Nodup.of_cons (by simpa using hnd))
          (fun hcc => hc (by simp at hcc ⊢; exact Or.inr hcc))
    rw [hnone]
    simp

/-- The previously stored record in the C10 witness store. -/
def c10old : VMDTO :=
  { id := "aws-u1", name := "old", provider := "aws", status := "stopped",
    specs := [] }

/-- The record re-saved under the same id in the C10 witness. -/
def c10new : VMDTO :=
  { id := "aws-u1", name := "new", provider := "aws", status := "running",
    specs := [] }

/-- C10 witness: the theorem applied to a concrete one-record store in which
`save` overwrites the stored record with the same id. -/
theorem c10_witness :
    vmGet (vmSave [("aws-u1", c10old)] c10new) "aws-u1" = some c10new ∧
    ((vmList (vmSave [("aws-u1", c10old)] c10new)).filter
      (fun w => w.id = "aws-u1")).length = 1 := by
  have h := c10_save_get_upsert [("aws-u1", c10old)] c10new
    ⟨by
      intro p hp
      rw [List.mem_singleton] at hp
      rw [hp]
      rfl,
     by simp⟩
  exact h

/-! ## Claim C8 — audit log query: filter count, page size, sort order -/

/-- C8 confirmed.  With `page=1` and `page_size=10`, `get_logs` returns
`total` equal to the number of entries matching the supplied filters (the
pre-pagination count, not the page size), at most `min(M, 10)` entries, and
the returned page is sorted by timestamp descending.  (`filtered.sort(...)`
is a stable sort, modelled by `insertionSort`, which computes the same unique
stable result.) -/
theorem c8_getlogs_pagination :
    ∀ (q : LogsQuery) (fileLines : List LogLine),
      q.page = 1 → q.page_size = 10 →
      (getLogs q fileLines).2
        = (applyFilters q (fileLines.filterMap parseLine)).length ∧
      (getLogs q fileLines).1.length
        ≤ min ((applyFilters q (fileLines.filterMap parseLine)).length) 10 ∧
      (getLogs q fileLines).1.Sorted tsDesc := by
  intro q fileLines hp hps
  unfold getLogs
  dsimp only
  rw [hp, hps]
  refine ⟨(List.perm_insertionSort tsDesc _).length_eq, ?_, ?_⟩
  · rw [List.length_take]
    have hlen := (List.perm_insertionSort tsDesc
      (applyFilters q (fileLines.filterMap parseLine))).length_eq
    simp only [Nat.sub_self, Nat.zero_mul, List.drop_zero]
    omega
  · exact List.Pairwise.sublist
      (List.Sublist.trans (List.take_sublist _ _) (List.drop_sublist _ _))
      (List.sorted_insertionSort tsDesc _)

/-- C8 witness: a concrete five-line log (one malformed) queried with
`provider="aws"`, `page=1`, `page_size=10`: three entries match. -/
theorem c8_witness :
    (getLogs
      { actor := none, action := none, provider := some "aws",
        success := none, vm_id := none, page := 1, page_size := 10 }
      [LogLine.valid (mkEntry "2024-01-01T00:00:00Z" "aws" true),
       LogLine.valid (mkEntry "2024-01-03T00:00:00Z" "AWS" false),
       LogLine.malformed "not json",
       LogLine.valid (mkEntry "2024-01-02T00:00:00Z" "gcp" true),
       LogLine.valid (mkEntry "2024-01-04T00:00:00Z" "aws-govcloud"
         true)]).2
      = (applyFilters
          { actor := none, action := none, provider := some "aws",
            success := none, vm_id := none, page := 1, page_size := 10 }
          ([LogLine.valid (mkEntry "2024-01-01T00:00:00Z" "aws" true),
            LogLine.valid (mkEntry "2024-01-03T00:00:00Z" "AWS" false),
            LogLine.malformed "not json",
            LogLine.valid (mkEntry "2024-01-02T00:00:00Z" "gcp" true),
            LogLine.valid (mkEntry "2024-01-04T00:00:00Z" "aws-govcloud"
              true)].filterMap parseLine)).length ∧
    (applyFilters
      { actor := none, action := none, provider := some "aws",
        success := none, vm_id := none, page := 1, page_size := 10 }
      ([LogLine.valid (mkEntry "2024-01-01T00:00:00Z" "aws" true),
        LogLine.valid (mkEntry "2024-01-03T00:00:00Z" "AWS" false),
        LogLine.malformed "not json",
        LogLine.valid (mkEntry "2024-01-02T00:00:00Z" "gcp" true),
        LogLine.valid (mkEntry "2024-01-04T00:00:00Z" "aws-govcloud"
          true)].filterMap parseLine)).length = 3 := by
  constructor
  · exact (c8_getlogs_pagination
      { actor := none, action := none, provider := some "aws",
        success := none, vm_id := none, page := 1, page_size := 10 }
      [LogLine.valid (mkEntry "2024-01-01T00:00:00Z" "aws" true),
       LogLine.valid (mkEntry "2024-01-03T00:00:00Z" "AWS" false),
       LogLine.malformed "not json",
       LogLine.valid (mkEntry "2024-01-02T00:00:00Z" "gcp" true),
       LogLine.valid (mkEntry "2024-01-04T00:00:00Z" "aws-govcloud" true)]
      rfl rfl).1
  · rfl

end VMAF
